import Mathlib

/-
Verification development for the glances MCP server
(source: src/glances_info_mcp.py).

The Python module is shallowly embedded as follows:
- JSON payloads become the inductive `Json` (numbers as exact rationals);
- Python exceptions become `Except PyErr` (a raised exception is `.error`);
- the in-memory registry (`SERVERS` plus `DEFAULT_SERVER`) becomes the
  explicit state `RegState`, threaded through the registry operations;
- the HTTP transport becomes a function `String → Option Json` mapping a
  full URL to the parsed JSON body (`none` models any transport/HTTP/parse
  failure, exactly the `except Exception: return None` collapse in
  `make_glances_request`);
- Python floats are modelled as exact rationals; the float operations the
  source performs on them (division by integer constants, `%.2f`
  formatting, comparison with 1024) are exact on every value any claim
  evaluates, so no rounding error is lost in the model.
-/

/- Batteries marks the rational-number operations irreducible to keep them
out of unification; proofs here evaluate formatter arithmetic on concrete
rationals, so restore the default reducibility inside this file (kernel
semantics are unchanged by a reducibility attribute). -/
attribute [local semireducible] Rat.mul Rat.add Rat.sub Rat.inv

set_option maxRecDepth 8192

namespace Glances

/-- A parsed JSON value, the payload type of every telemetry request.
Numbers are exact rationals (Python distinguishes int/float; `numStr`
below renders integral rationals the way Python renders ints). -/
inductive Json where
  | null : Json
  | bool : Bool → Json
  | num : ℚ → Json
  | str : String → Json
  | arr : List Json → Json
  | obj : List (String × Json) → Json

/-- Python truthiness (`if not data:`): None, False, 0, empty string,
empty list and empty dict are falsy; everything else is truthy. -/
def Json.truthy : Json → Bool
  | .null => false
  | .bool b => b
  | .num q => decide (q ≠ 0)
  | .str s => decide (s ≠ "")
  | .arr xs => !xs.isEmpty
  | .obj kvs => !kvs.isEmpty

/-- The Python exceptions the module can raise: `ValueError` (unknown
server id, `int()` parse failure), `KeyError` (dict indexing),
`AttributeError` (calling `.get`/`.items` on a non-dict),
`IndexError` (`[0]` on an empty list) and `TypeError` (arithmetic or
iteration on a wrongly-shaped value). -/
inductive PyErr where
  | valueError : String → PyErr
  | keyError : String → PyErr
  | attributeError : String → PyErr
  | indexError : PyErr
  | typeError : PyErr
deriving DecidableEq

/-- Python `d.get(key, default)`: total on dicts, `AttributeError` on any
other value (the source never guards the receiver). -/
def pyGet (v : Json) (key : String) (dflt : Json) : Except PyErr Json :=
  match v with
  | .obj kvs => .ok ((kvs.lookup key).getD dflt)
  | _ => .error (.attributeError ("get"))

/-- Python `d.items()`: the key/value pairs of a dict, `AttributeError`
otherwise. -/
def pyItems (v : Json) : Except PyErr (List (String × Json)) :=
  match v with
  | .obj kvs => .ok kvs
  | _ => .error (.attributeError ("items"))

/-- Python `for x in v`: elements of a list, keys of a dict,
one-character strings of a string; `TypeError` otherwise. -/
def pyIter (v : Json) : Except PyErr (List Json) :=
  match v with
  | .arr xs => .ok xs
  | .obj kvs => .ok (kvs.map (fun p => Json.str p.1))
  | .str s => .ok (s.data.map (fun c => Json.str (String.singleton c)))
  | _ => .error .typeError

/-- Python `v / c` for a numeric constant `c`: numbers (and bools, which
are ints) divide, everything else raises `TypeError`. -/
def pyDivC (v : Json) (c : ℚ) : Except PyErr ℚ :=
  match v with
  | .num q => .ok (q / c)
  | .bool b => .ok ((if b then (1 : ℚ) else 0) / c)
  | _ => .error .typeError

/-- Coerce a JSON value to a number for arithmetic/comparison
(`format_bytes` compares its argument with 1024): numbers and bools
succeed, everything else raises `TypeError`. -/
def pyToRat (v : Json) : Except PyErr ℚ :=
  match v with
  | .num q => .ok q
  | .bool b => .ok (if b then (1 : ℚ) else 0)
  | _ => .error .typeError

/-- Truncation of a rational toward zero, the semantics of Python
`int()` applied to a float (`q.den` is positive, and `Int.tdiv`
truncates toward zero). -/
def ratTrunc (q : ℚ) : ℤ :=
  Int.tdiv q.num (q.den : ℤ)

/-- Python `int(v)`: ints/floats truncate toward zero, bools map to 0/1,
strings parse as a decimal integer (`ValueError` on failure), anything
else raises `TypeError`. -/
def pyInt (v : Json) : Except PyErr ℤ :=
  match v with
  | .num q => .ok (ratTrunc q)
  | .bool b => .ok (if b then 1 else 0)
  | .str s =>
      match s.toInt? with
      | some n => .ok n
      | none => .error (.valueError ("invalid literal for int"))
  | _ => .error .typeError

/-- Python `v[:n]` slicing: lists and strings give their first `n`
items, everything else raises `TypeError`. -/
def pySliceTake (n : ℕ) (v : Json) : Except PyErr Json :=
  match v with
  | .arr xs => .ok (.arr (xs.take n))
  | .str s => .ok (.str (String.mk (s.data.take n)))
  | _ => .error .typeError

/-- Python `v[0]`: first element of a list or string (`IndexError` when
empty), `TypeError` on other values. -/
def pyIndexZero (v : Json) : Except PyErr Json :=
  match v with
  | .arr [] => .error .indexError
  | .arr (x :: _) => .ok x
  | .str s =>
      match s.data with
      | [] => .error .indexError
      | c :: _ => .ok (.str (String.singleton c))
  | _ => .error .typeError

mutual

/-- Python `==` between two JSON values: bools compare as the ints 0/1,
dicts compare order-insensitively, values of different types compare
unequal. -/
def pyEq : Json → Json → Bool
  | .null, .null => true
  | .bool a, .bool b => a == b
  | .bool a, .num q => (if a then (1 : ℚ) else 0) == q
  | .num q, .bool b => q == (if b then (1 : ℚ) else 0)
  | .num a, .num b => a == b
  | .str a, .str b => a == b
  | .arr xs, .arr ys => pyEqList xs ys
  | .obj a, .obj b => a.length == b.length && pyEqKeys a b
  | _, _ => false

/-- Elementwise Python `==` for lists. -/
def pyEqList : List Json → List Json → Bool
  | [], [] => true
  | x :: xs, y :: ys => pyEq x y && pyEqList xs ys
  | _, _ => false

/-- Python dict equality: every key of the first maps to an equal value
in the second (with equal sizes this is dict `==`). -/
def pyEqKeys : List (String × Json) → List (String × Json) → Bool
  | [], _ => true
  | kv :: rest, b =>
      (match b.lookup kv.1 with
       | some v => pyEq kv.2 v
       | none => false) && pyEqKeys rest b

end

/-- Digits needed to render a rational exactly in decimal, if at most 18
suffice (every float the source manipulates is a finite binary fraction,
hence a finite decimal). -/
def decDigits (q : ℚ) : Option ℕ :=
  (List.range 19).find? (fun k => (q * (10 : ℚ) ^ k).den = 1)

/-- Left-pad the fractional digits with zeros to `k` places. -/
def padZeros (k : ℕ) (fp : ℕ) : String :=
  let s := toString fp
  String.mk (List.replicate (k - s.length) ('0' : Char)) ++ s

/-- Python `str()` of a number: ints render with no decimal point,
finite decimals render with their (trailing-zero-free) decimal
expansion.  Rationals needing more than 18 decimal digits render as a
fraction; no settled claim evaluates one. -/
def numStr (q : ℚ) : String :=
  if q.den = 1 then toString q.num
  else
    match decDigits q with
    | some k =>
        let n := (q * (10 : ℚ) ^ k).num
        let sgn := if n < 0 then "-" else ""
        let m := n.natAbs
        sgn ++ toString (m / 10 ^ k) ++ "." ++ padZeros k (m % 10 ^ k)
    | none => toString q.num ++ "/" ++ toString q.den

/-- Comma-and-space joining, as Python renders container contents. -/
def joinComma (l : List String) : String := String.intercalate (", ") l

mutual

/-- Python `repr()` of a JSON value: strings are quoted, containers list
the reprs of their contents. -/
def pyRepr : Json → String
  | .null => "None"
  | .bool b => if b then "True" else "False"
  | .num q => numStr q
  | .str s => "\x27" ++ s ++ "\x27"
  | .arr xs => "[" ++ pyReprList xs ++ "]"
  | .obj kvs => "\x7b" ++ pyReprKeys kvs ++ "\x7d"

/-- Comma-separated reprs of list elements. -/
def pyReprList : List Json → String
  | [] => ""
  | [x] => pyRepr x
  | x :: xs => pyRepr x ++ ", " ++ pyReprList xs

/-- Comma-separated `'key': repr` pairs of dict entries. -/
def pyReprKeys : List (String × Json) → String
  | [] => ""
  | [kv] => "\x27" ++ kv.1 ++ "\x27: " ++ pyRepr kv.2
  | kv :: rest => "\x27" ++ kv.1 ++ "\x27: " ++ pyRepr kv.2 ++ ", " ++ pyReprKeys rest

end

/-- Python `str()` of a JSON value, the meaning of an f-string
interpolation `{v}`: strings render unquoted, containers render their
elements by `repr`. -/
def pyStr : Json → String
  | .null => "None"
  | .bool b => if b then "True" else "False"
  | .num q => numStr q
  | .str s => s
  | .arr xs => "[" ++ pyReprList xs ++ "]"
  | .obj kvs => "\x7b" ++ pyReprKeys kvs ++ "\x7d"

/-- Round a rational to the nearest integer, ties to even — the rounding
of Python's `%.2f` format (exact on every value settled here). -/
def roundHalfEven (q : ℚ) : ℤ :=
  let f := q.floor
  let r := q - (f : ℚ)
  if r < 1 / 2 then f
  else if 1 / 2 < r then f + 1
  else if f % 2 = 0 then f else f + 1

/-- Python `f"{v:.2f}"`: the value rounded to two decimal places, always
printing two fractional digits. -/
def formatFixed2 (q : ℚ) : String :=
  let n := roundHalfEven (q * 100)
  let sgn := if n < 0 then "-" else ""
  let m := n.natAbs
  sgn ++ toString (m / 100) ++ "." ++ (if m % 100 < 10 then "0" else "") ++ toString (m % 100)

/-- Python `f"{v:.2f}"` applied directly to a JSON value (as
`get_load_average` does): numbers and bools format, anything else
raises. -/
def pyFixed2 (v : Json) : Except PyErr String :=
  match v with
  | .num q => .ok (formatFixed2 q)
  | .bool b => .ok (formatFixed2 (if b then 1 else 0))
  | _ => .error .typeError

/-- The unit-selection loop of `format_bytes`: divide by 1024 while the
value is at least 1024 and units remain; after the last listed unit the
value prints as PB. -/
def formatBytesGo : ℚ → List String → String
  | v, [] => formatFixed2 v ++ " PB"
  | v, u :: us => if v < 1024 then formatFixed2 v ++ " " ++ u else formatBytesGo (v / 1024) us

/-- `format_bytes`: repeated division by 1024 over the units
B/KB/MB/GB/TB, falling through to PB, two decimal places. -/
def format_bytes (bytes_value : ℚ) : String :=
  formatBytesGo bytes_value [("B"), ("KB"), ("MB"), ("GB"), ("TB")]

/-- `format_bytes_rate`: delegates to `format_bytes`. -/
def format_bytes_rate (bytes_per_sec : ℚ) : String := format_bytes bytes_per_sec

/-- Whether the first character list is a prefix of the second. -/
def startsWithChars : List Char → List Char → Bool
  | [], _ => true
  | _ :: _, [] => false
  | p :: ps, c :: cs => p == c && startsWithChars ps cs

/-- Whether the first character list occurs contiguously inside the
second — Python's `pattern in text` substring test. -/
def hasSubChars : List Char → List Char → Bool
  | pat, [] => pat.isEmpty
  | pat, c :: cs => startsWithChars pat (c :: cs) || hasSubChars pat cs

/-- One entry of the `SERVERS` configuration dict: the fields the module
reads from a server record (`name`, `url`, `description`). -/
structure ServerInfo where
  name : String
  url : String
  description : String
deriving DecidableEq

/-- The module's mutable state: the `SERVERS` dict (an association list
with unique keys, keyed by server id) and the `DEFAULT_SERVER` dict
(fields `id` and `env`). -/
structure RegState where
  servers : List (String × ServerInfo)
  defaultId : String
  defaultEnv : String
deriving DecidableEq

/-- `get_default_server_id`: returns `DEFAULT_SERVER["id"]`. -/
def get_default_server_id (st : RegState) : String :=
  st.defaultId

/-- `set_default_server_id`: raises `ValueError` when the id is not in
`SERVERS` (before any mutation); otherwise updates the default id and
recomputes the env tag from a substring test of the description. -/
def set_default_server_id (server_id : String) (st : RegState) : Except String RegState :=
  match st.servers.lookup server_id with
  | none => .error ("未找到服务器配置: " ++ server_id)
  | some info =>
      .ok { st with
              defaultId := server_id,
              defaultEnv :=
                if hasSubChars ("生产".data) (info.description.data) then "prod" else "test" }

/-- `get_server_url`: substitutes the default id when the argument is
omitted, then raises `ValueError` for an unknown id, else returns the
stored base url. -/
def get_server_url (server_id : Option String) (st : RegState) : Except String String :=
  let sid := server_id.getD st.defaultId
  match st.servers.lookup sid with
  | none => .error ("未找到服务器配置: " ++ sid)
  | some info => .ok info.url

/-- Python `SERVERS[server_id]` where `server_id : Optional[str]`: a
`KeyError` when the key (or `None` itself) is absent. -/
def serversIndex (st : RegState) (server_id : Option String) : Except PyErr ServerInfo :=
  match server_id with
  | none => .error (.keyError ("None"))
  | some sid =>
      match st.servers.lookup sid with
      | none => .error (.keyError sid)
      | some info => .ok info

/-- Python `str(server_id)` for the `Optional[str]` parameter, as an
f-string interpolates it: `None` renders as the text "None". -/
def optStr : Option String → String
  | none => "None"
  | some s => s

/-- `make_glances_request`: resolves the server id (propagating the
`ValueError` of `get_server_url`), then performs the GET; the transport
argument maps the full URL to `some` parsed body or `none` (the uniform
collapse of transport errors, non-2xx statuses and JSON parse
failures). -/
def make_glances_request (http : String → Option Json) (endpoint : String)
    (server_id : Option String) (st : RegState) : Except PyErr (Option Json) :=
  match get_server_url server_id st with
  | .error e => .error (.valueError e)
  | .ok url => .ok (http (url ++ "/" ++ endpoint))

/-- `make_glances_post_request`: resolves the server id (propagating the
`ValueError`), then performs the POST; the transport argument returns
`true` exactly on a 2xx response. -/
def make_glances_post_request (httpPost : String → Bool) (endpoint : String)
    (server_id : Option String) (st : RegState) : Except PyErr Bool :=
  match get_server_url server_id st with
  | .error e => .error (.valueError e)
  | .ok url => .ok (httpPost (url ++ "/" ++ endpoint))

/-- The `try/except ValueError as e: return str(e)` wrapper some handlers
use: a raised `ValueError` becomes an ordinary returned string, every
other outcome passes through. -/
def catchValueError : Except PyErr String → Except PyErr String
  | .error (.valueError m) => .ok m
  | r => r

/-- `set_default_server` tool: delegates to `set_default_server_id`,
catching its `ValueError` as the returned text; on success re-indexes
`SERVERS` for the confirmation message.  Returns the reply and the
updated state. -/
def set_default_server (server_id : String) (st : RegState) :
    (Except PyErr String) × RegState :=
  match set_default_server_id server_id st with
  | .error m => (.ok m, st)
  | .ok st' =>
      match st.servers.lookup server_id with
      | some info =>
          (.ok ("已将默认服务器设置为: " ++ info.name ++ " (" ++ info.description ++ ")"), st')
      | none => (.error (.keyError server_id), st')

/-- `get_default_server` tool: renders the current default entry
(`SERVERS[default_id]` raises `KeyError` when the default id is
dangling). -/
def get_default_server (st : RegState) : Except PyErr String :=
  match st.servers.lookup st.defaultId with
  | none => .error (.keyError st.defaultId)
  | some info =>
      .ok ("\n当前默认服务器:\nID: " ++ st.defaultId ++ "\n名称: " ++ info.name ++
        "\n环境: " ++ (if st.defaultEnv = "prod" then "生产环境" else "测试环境") ++
        "\n描述: " ++ info.description ++ "\n地址: " ++ info.url ++ "\n")

/-- `list_servers` tool: one block per configured server, in dict
order. -/
def list_servers (st : RegState) : String :=
  "配置的服务器列表:\n" ++
    String.join (st.servers.map (fun p =>
      "\nID: " ++ p.1 ++ "\n名称: " ++ p.2.name ++ "\n地址: " ++ p.2.url ++
        "\n描述: " ++ p.2.description ++ "\n"))

/-- `add_server` tool: duplicate ids are rejected with an error text and
no mutation; otherwise the entry is appended. -/
def add_server (server_id name url description : String) (st : RegState) :
    String × RegState :=
  if (st.servers.lookup server_id).isSome then
    ("错误：服务器ID \x27" ++ server_id ++ "\x27 已存在", st)
  else
    ("成功添加服务器 \x27" ++ name ++ "\x27",
     { st with servers := st.servers ++ [(server_id, ⟨name, url, description⟩)] })

/-- `remove_server` tool: unknown ids are rejected with an error text and
no mutation; otherwise `del SERVERS[server_id]` removes the entry.  The
default pointer is not consulted. -/
def remove_server (server_id : String) (st : RegState) : String × RegState :=
  if (st.servers.lookup server_id).isSome then
    ("成功删除服务器 \x27" ++ server_id ++ "\x27",
     { st with servers := st.servers.filter (fun p => p.1 != server_id) })
  else
    ("错误：未找到服务器ID \x27" ++ server_id ++ "\x27", st)

/-- `format_system_info`: defensive `.get` for every field, nested
objects defaulting to empty dicts, numeric defaults 0 and textual
defaults "Unknown" (empty string for the OS version). -/
def format_system_info (data : Json) : Except PyErr String := do
  let hostname ← pyGet data ("hostname") (.str ("Unknown"))
  let osName ← pyGet data ("os_name") (.str ("Unknown"))
  let osVersion ← pyGet data ("os_version") (.str (""))
  let cpuObj ← pyGet data ("cpu") (.obj [])
  let cpuTotal ← pyGet cpuObj ("total") (.num 0)
  let memObj ← pyGet data ("mem") (.obj [])
  let memPercent ← pyGet memObj ("percent") (.num 0)
  let dioObj ← pyGet data ("diskio") (.obj [])
  let dioPercent ← pyGet dioObj ("percent") (.num 0)
  pure ("\n系统信息:\n主机名: " ++ pyStr hostname ++
    "\n操作系统: " ++ pyStr osName ++ " " ++ pyStr osVersion ++
    "\nCPU使用率: " ++ pyStr cpuTotal ++ "%\n内存使用率: " ++ pyStr memPercent ++
    "%\n磁盘使用率: " ++ pyStr dioPercent ++ "%\n")

/-- One numbered block of `format_process_info`. -/
def processEntry (i : ℕ) (proc : Json) : Except PyErr String := do
  let nm ← pyGet proc ("name") (.str ("Unknown"))
  let pid ← pyGet proc ("pid") (.str ("Unknown"))
  let cpu ← pyGet proc ("cpu_percent") (.num 0)
  let mem ← pyGet proc ("memory_percent") (.num 0)
  pure ("\n" ++ toString (i + 1) ++ ". " ++ pyStr nm ++ " (PID: " ++ pyStr pid ++
    ")\n   CPU: " ++ pyStr cpu ++ "%\n   内存: " ++ pyStr mem ++ "%\n")

/-- `format_process_info`: the first five processes
(`processes[:5]`), enumerated from 1. -/
def format_process_info (processes : Json) : Except PyErr String := do
  let sliced ← pySliceTake 5 processes
  let items ← pyIter sliced
  let entries ← items.enum.mapM (fun p => processEntry p.1 p.2)
  pure ("进程信息 (前5个):\n" ++ String.join entries)

/-- One block of `format_alert_info`.  The `end` field's default is the
Python conditional `'-1' if alert.get('end') == -1 else
alert.get('end', 'Unknown')`; both conditional arms are effect-free
`.get` calls on the same dict, so evaluating both (rather than
short-circuiting) is equivalent. -/
def alertEntry (alert : Json) : Except PyErr String := do
  let ty ← pyGet alert ("type") (.str ("Unknown"))
  let stt ← pyGet alert ("state") (.str ("Unknown"))
  let bg ← pyGet alert ("begin") (.str ("Unknown"))
  let endRaw ← pyGet alert ("end") Json.null
  let endAlt ← pyGet alert ("end") (.str ("Unknown"))
  let endDflt := if pyEq endRaw (Json.num (-1)) then Json.str ("-1") else endAlt
  let ev ← pyGet alert ("end") endDflt
  let ds ← pyGet alert ("desc") (.str ("No description"))
  pure ("\n类型: " ++ pyStr ty ++ "\n状态: " ++ pyStr stt ++
    "\n开始时间: " ++ pyStr bg ++ "\n结束时间: " ++ pyStr ev ++
    "\n描述: " ++ pyStr ds ++ "\n")

/-- `format_alert_info`: a falsy alert payload renders the distinct
no-alerts message; otherwise one block per alert. -/
def format_alert_info (alerts : Json) : Except PyErr String :=
  if !alerts.truthy then .ok ("当前没有告警信息")
  else do
    let items ← pyIter alerts
    let entries ← items.mapM alertEntry
    pure ("告警信息:\n" ++ String.join entries)

/-- `format_cpu_info`: five percentage fields, each defaulting to 0. -/
def format_cpu_info (data : Json) : Except PyErr String := do
  let total ← pyGet data ("total") (.num 0)
  let user ← pyGet data ("user") (.num 0)
  let system ← pyGet data ("system") (.num 0)
  let idle ← pyGet data ("idle") (.num 0)
  let iowait ← pyGet data ("iowait") (.num 0)
  pure ("\nCPU信息:\n总使用率: " ++ pyStr total ++ "%\n用户空间: " ++ pyStr user ++
    "%\n系统空间: " ++ pyStr system ++ "%\n空闲: " ++ pyStr idle ++
    "%\nI/O等待: " ++ pyStr iowait ++ "%\n")

/-- `format_memory_info`: byte fields divided by 1024 twice and labeled
"MB" unconditionally (no unit selection), percentage printed as-is. -/
def format_memory_info (data : Json) : Except PyErr String := do
  let total ← pyGet data ("total") (.num 0)
  let totalK ← pyDivC total 1024
  let used ← pyGet data ("used") (.num 0)
  let usedK ← pyDivC used 1024
  let free ← pyGet data ("free") (.num 0)
  let freeK ← pyDivC free 1024
  let percent ← pyGet data ("percent") (.num 0)
  pure ("\n内存信息:\n总内存: " ++ formatFixed2 (totalK / 1024) ++
    " MB\n已使用: " ++ formatFixed2 (usedK / 1024) ++
    " MB\n空闲: " ++ formatFixed2 (freeK / 1024) ++
    " MB\n使用率: " ++ pyStr percent ++ "%\n")

/-- One device block of `format_disk_info`: read/write byte counts
divided by 1024 twice and labeled "MB" unconditionally. -/
def diskEntry (p : String × Json) : Except PyErr String := do
  let rb ← pyGet p.2 ("read_bytes") (.num 0)
  let rbK ← pyDivC rb 1024
  let wb ← pyGet p.2 ("write_bytes") (.num 0)
  let wbK ← pyDivC wb 1024
  pure ("\n设备: " ++ p.1 ++ "\n  读取: " ++ formatFixed2 (rbK / 1024) ++
    " MB\n  写入: " ++ formatFixed2 (wbK / 1024) ++ " MB\n")

/-- `format_disk_info`: one block per `data.items()` entry. -/
def format_disk_info (data : Json) : Except PyErr String := do
  let items ← pyItems data
  let entries ← items.mapM diskEntry
  pure ("磁盘I/O信息:\n" ++ String.join entries)

/-- One sensor line of the list branch of `format_sensors_info`. -/
def sensorLine (sensor : Json) : Except PyErr String := do
  let lbl ← pyGet sensor ("label") (.str ("Unknown"))
  let v ← pyGet sensor ("value") (.num 0)
  let u ← pyGet sensor ("unit") (.str (""))
  pure ("  " ++ pyStr lbl ++ ": " ++ pyStr v ++ " " ++ pyStr u ++ "\n")

/-- One sensor-type block of `format_sensors_info`: the `isinstance`
dispatch on list vs. dict, with no output for other shapes. -/
def sensorBlock (p : String × Json) : Except PyErr String := do
  let body ←
    match p.2 with
    | .arr xs => do
        let ls ← xs.mapM sensorLine
        pure (String.join ls)
    | .obj kvs => do
        let v ← pyGet (Json.obj kvs) ("value") (.num 0)
        let u ← pyGet (Json.obj kvs) ("unit") (.str (""))
        pure ("  值: " ++ pyStr v ++ " " ++ pyStr u ++ "\n")
    | _ => pure ("")
  pure ("\n" ++ p.1 ++ ":\n" ++ body)

/-- `format_sensors_info`: one block per `data.items()` entry. -/
def format_sensors_info (data : Json) : Except PyErr String := do
  let items ← pyItems data
  let blocks ← items.mapM sensorBlock
  pure ("传感器信息:\n" ++ String.join blocks)

/-- One container block of `format_docker_info`: note the `[:12]` slice
on the id and the `[0]` index on the image list. -/
def dockerEntry (container : Json) : Except PyErr String := do
  let idv ← pyGet container ("id") (.str ("Unknown"))
  let id12 ← pySliceTake 12 idv
  let nm ← pyGet container ("name") (.str ("Unknown"))
  let img ← pyGet container ("image") (.arr [.str ("Unknown")])
  let img0 ← pyIndexZero img
  let stt ← pyGet container ("status") (.str ("Unknown"))
  let cpu ← pyGet container ("cpu_percent") (.num 0)
  let mem ← pyGet container ("memory_percent") (.num 0)
  pure ("\n容器ID: " ++ pyStr id12 ++ "\n名称: " ++ pyStr nm ++
    "\n镜像: " ++ pyStr img0 ++ "\n状态: " ++ pyStr stt ++
    "\nCPU使用率: " ++ pyStr cpu ++ "%\n内存使用率: " ++ pyStr mem ++ "%\n")

/-- `format_docker_info`: a falsy container payload renders the
no-containers message; otherwise one block per container. -/
def format_docker_info (containers : Json) : Except PyErr String :=
  if !containers.truthy then .ok ("没有运行中的Docker容器")
  else do
    let items ← pyIter containers
    let entries ← items.mapM dockerEntry
    pure ("Docker容器信息:\n" ++ String.join entries)

/-- One GPU block of `format_gpu_info`. -/
def gpuEntry (gpu : Json) : Except PyErr String := do
  let gid ← pyGet gpu ("gpu_id") (.str ("Unknown"))
  let nm ← pyGet gpu ("name") (.str ("Unknown"))
  let temp ← pyGet gpu ("temperature") (.num 0)
  let pr ← pyGet gpu ("proc") (.num 0)
  let mem ← pyGet gpu ("mem") (.num 0)
  let fan ← pyGet gpu ("fan_speed") (.num 0)
  pure ("\nGPU ID: " ++ pyStr gid ++ "\n名称: " ++ pyStr nm ++
    "\n温度: " ++ pyStr temp ++ "°C\n处理器使用率: " ++ pyStr pr ++
    "%\n内存使用率: " ++ pyStr mem ++ "%\n风扇转速: " ++ pyStr fan ++ " RPM\n")

/-- `format_gpu_info`: a falsy payload renders the no-GPU message;
otherwise one block per element of the payload. -/
def format_gpu_info (data : Json) : Except PyErr String :=
  if !data.truthy then .ok ("没有检测到GPU或GPU信息不可用")
  else do
    let items ← pyIter data
    let entries ← items.mapM gpuEntry
    pure ("GPU信息:\n" ++ String.join entries)

/-- `format_process_count`: five counters, each defaulting to 0. -/
def format_process_count (data : Json) : Except PyErr String := do
  let total ← pyGet data ("total") (.num 0)
  let running ← pyGet data ("running") (.num 0)
  let sleeping ← pyGet data ("sleeping") (.num 0)
  let other ← pyGet data ("other") (.num 0)
  let thread ← pyGet data ("thread") (.num 0)
  pure ("\n进程统计:\n总数: " ++ pyStr total ++ "\n运行中: " ++ pyStr running ++
    "\n休眠: " ++ pyStr sleeping ++ "\n其他: " ++ pyStr other ++
    "\n线程: " ++ pyStr thread ++ "\n")

/-- `format_connections_info`: six counters, each defaulting to 0. -/
def format_connections_info (data : Json) : Except PyErr String := do
  let est ← pyGet data ("ESTABLISHED") (.num 0)
  let lsn ← pyGet data ("LISTEN") (.num 0)
  let synSent ← pyGet data ("SYN_SENT") (.num 0)
  let synRecv ← pyGet data ("SYN_RECV") (.num 0)
  let ini ← pyGet data ("initiated") (.num 0)
  let term ← pyGet data ("terminated") (.num 0)
  pure ("\n网络连接统计:\n已建立连接: " ++ pyStr est ++ "\n监听端口: " ++ pyStr lsn ++
    "\n等待连接: " ++ pyStr synSent ++ "\n接收连接: " ++ pyStr synRecv ++
    "\n已发起连接: " ++ pyStr ini ++ "\n已终止连接: " ++ pyStr term ++ "\n")

/-- One address line of `format_ip_info`. -/
def ipLine (addr : Json) : Except PyErr String := do
  let a ← pyGet addr ("address") (.str ("Unknown"))
  let f ← pyGet addr ("family") (.str ("Unknown"))
  pure ("  " ++ pyStr a ++ " (" ++ pyStr f ++ ")\n")

/-- One interface block of `format_ip_info`: the per-interface value is
iterated, so a non-iterable value raises. -/
def ipBlock (p : String × Json) : Except PyErr String := do
  let addrs ← pyIter p.2
  let ls ← addrs.mapM ipLine
  pure ("\n" ++ p.1 ++ ":\n" ++ String.join ls)

/-- `format_ip_info`: one block per `data.items()` entry. -/
def format_ip_info (data : Json) : Except PyErr String := do
  let items ← pyItems data
  let blocks ← items.mapM ipBlock
  pure ("IP地址信息:\n" ++ String.join blocks)

/-- `get_system_info` tool: the only telemetry handler (with
`get_process_info` and `get_all_stats`) wrapped in
`try/except ValueError`; a falsy or absent payload yields the
unavailable message with the raw `server_id` argument interpolated. -/
def get_system_info (http : String → Option Json) (server_id : Option String)
    (st : RegState) : Except PyErr String :=
  catchValueError (do
    let data ← make_glances_request http ("system") server_id st
    match data with
    | none => pure ("无法获取服务器 \x27" ++ optStr server_id ++ "\x27 的系统信息。")
    | some j =>
        if !j.truthy then
          pure ("无法获取服务器 \x27" ++ optStr server_id ++ "\x27 的系统信息。")
        else do
          let info ← serversIndex st server_id
          let body ← format_system_info j
          pure ("服务器 \x27" ++ info.name ++ "\x27 的系统信息:\n" ++ body))

/-- `get_process_info` tool: wrapped in `try/except ValueError`. -/
def get_process_info (http : String → Option Json) (server_id : Option String)
    (st : RegState) : Except PyErr String :=
  catchValueError (do
    let data ← make_glances_request http ("processlist") server_id st
    match data with
    | none => pure ("无法获取服务器 \x27" ++ optStr server_id ++ "\x27 的进程信息。")
    | some j =>
        if !j.truthy then
          pure ("无法获取服务器 \x27" ++ optStr server_id ++ "\x27 的进程信息。")
        else do
          let info ← serversIndex st server_id
          let body ← format_process_info j
          pure ("服务器 \x27" ++ info.name ++ "\x27 的进程信息:\n" ++ body))

/-- One interface block of `get_network_info`: rates and totals go
through the `format_bytes` unit-selection conversion, the link speed
through a fixed division by 1024³. -/
def networkEntry (interface : Json) : Except PyErr String := do
  let nm ← pyGet interface ("interface_name") (.str ("unknown"))
  let recvRate ← pyGet interface ("bytes_recv_rate_per_sec") (.num 0)
  let sentRate ← pyGet interface ("bytes_sent_rate_per_sec") (.num 0)
  let totalRecv ← pyGet interface ("bytes_recv_gauge") (.num 0)
  let totalSent ← pyGet interface ("bytes_sent_gauge") (.num 0)
  let speed ← pyGet interface ("speed") (.num 0)
  let speedGbps ← pyDivC speed (1024 * 1024 * 1024)
  let rr ← pyToRat recvRate
  let sr ← pyToRat sentRate
  let tr ← pyToRat totalRecv
  let ts ← pyToRat totalSent
  pure ("\n接口: " ++ pyStr nm ++ "\n  链接速度: " ++ formatFixed2 speedGbps ++
    " Gbps\n  当前速率:\n    接收: " ++ format_bytes_rate rr ++
    "/s\n    发送: " ++ format_bytes_rate sr ++
    "/s\n  总流量:\n    接收: " ++ format_bytes tr ++
    "\n    发送: " ++ format_bytes ts ++ "\n")

/-- `get_network_info` tool: no `try/except`, so a resolution
`ValueError` propagates. -/
def get_network_info (http : String → Option Json) (server_id : Option String)
    (st : RegState) : Except PyErr String := do
  let data ← make_glances_request http ("network") server_id st
  match data with
  | none => pure ("无法获取网络信息。")
  | some j =>
      if !j.truthy then pure ("无法获取网络信息。")
      else do
        let items ← pyIter j
        let entries ← items.mapM networkEntry
        pure ("网络信息:\n" ++ String.join entries)

/-- `get_alert_info` tool: the only handler that tests the payload
against `None` rather than for truthiness. -/
def get_alert_info (http : String → Option Json) (server_id : Option String)
    (st : RegState) : Except PyErr String := do
  let data ← make_glances_request http ("alert") server_id st
  match data with
  | none => pure ("无法获取告警信息。")
  | some j => format_alert_info j

/-- `clear_all_alerts` tool: a POST whose boolean outcome selects one of
two fixed messages. -/
def clear_all_alerts (httpPost : String → Bool) (server_id : Option String)
    (st : RegState) : Except PyErr String := do
  let succ ← make_glances_post_request httpPost ("events/clear/all") server_id st
  pure (if succ then "已成功清除所有告警。" else "清除告警失败。")

/-- `get_cpu_info` tool: no `try/except`, so a resolution `ValueError`
propagates. -/
def get_cpu_info (http : String → Option Json) (server_id : Option String)
    (st : RegState) : Except PyErr String := do
  let data ← make_glances_request http ("cpu") server_id st
  match data with
  | none => pure ("无法获取CPU信息。")
  | some j =>
      if !j.truthy then pure ("无法获取CPU信息。")
      else format_cpu_info j

/-- `get_memory_info` tool. -/
def get_memory_info (http : String → Option Json) (server_id : Option String)
    (st : RegState) : Except PyErr String := do
  let data ← make_glances_request http ("mem") server_id st
  match data with
  | none => pure ("无法获取内存信息。")
  | some j =>
      if !j.truthy then pure ("无法获取内存信息。")
      else format_memory_info j

/-- `get_disk_io_info` tool. -/
def get_disk_io_info (http : String → Option Json) (server_id : Option String)
    (st : RegState) : Except PyErr String := do
  let data ← make_glances_request http ("diskio") server_id st
  match data with
  | none => pure ("无法获取磁盘I/O信息。")
  | some j =>
      if !j.truthy then pure ("无法获取磁盘I/O信息。")
      else format_disk_info j

/-- Python `', '.join(v)`: every element must already be a string. -/
def pyJoinCommaStr (v : Json) : Except PyErr String := do
  let items ← pyIter v
  let strs ← items.mapM (fun x =>
    match x with
    | Json.str s => Except.ok s
    | _ => Except.error PyErr.typeError)
  pure (joinComma strs)

/-- `get_plugins_list` tool. -/
def get_plugins_list (http : String → Option Json) (server_id : Option String)
    (st : RegState) : Except PyErr String := do
  let data ← make_glances_request http ("pluginslist") server_id st
  match data with
  | none => pure ("无法获取插件列表。")
  | some j =>
      if !j.truthy then pure ("无法获取插件列表。")
      else do
        let joined ← pyJoinCommaStr j
        pure ("已启用的插件:\n" ++ joined)

/-- `get_sensors_info` tool. -/
def get_sensors_info (http : String → Option Json) (server_id : Option String)
    (st : RegState) : Except PyErr String := do
  let data ← make_glances_request http ("sensors") server_id st
  match data with
  | none => pure ("无法获取传感器信息。")
  | some j =>
      if !j.truthy then pure ("无法获取传感器信息。")
      else format_sensors_info j

/-- `get_docker_info` tool. -/
def get_docker_info (http : String → Option Json) (server_id : Option String)
    (st : RegState) : Except PyErr String := do
  let data ← make_glances_request http ("containers") server_id st
  match data with
  | none => pure ("无法获取Docker容器信息。")
  | some j =>
      if !j.truthy then pure ("无法获取Docker容器信息。")
      else format_docker_info j

/-- `get_gpu_info` tool. -/
def get_gpu_info (http : String → Option Json) (server_id : Option String)
    (st : RegState) : Except PyErr String := do
  let data ← make_glances_request http ("gpu") server_id st
  match data with
  | none => pure ("无法获取GPU信息。")
  | some j =>
      if !j.truthy then pure ("无法获取GPU信息。")
      else format_gpu_info j

/-- `get_quicklook` tool: inline template with numeric defaults 0 and
the textual default "0 0 0" for the load triple. -/
def get_quicklook (http : String → Option Json) (server_id : Option String)
    (st : RegState) : Except PyErr String := do
  let data ← make_glances_request http ("quicklook") server_id st
  match data with
  | none => pure ("无法获取系统概览信息。")
  | some j =>
      if !j.truthy then pure ("无法获取系统概览信息。")
      else do
        let cpu ← pyGet j ("cpu") (.num 0)
        let mem ← pyGet j ("mem") (.num 0)
        let swp ← pyGet j ("swap") (.num 0)
        let ld ← pyGet j ("load") (.str ("0 0 0"))
        pure ("\n系统概览:\nCPU: " ++ pyStr cpu ++ "%\n内存: " ++ pyStr mem ++
          "%\n交换分区: " ++ pyStr swp ++ "%\n系统负载: " ++ pyStr ld ++ "\n")

/-- One filesystem block of `get_fs_info`: sizes divided by 1024 three
times and labeled "GB" unconditionally. -/
def fsEntry (fs : Json) : Except PyErr String := do
  let mnt ← pyGet fs ("mnt_point") (.str ("Unknown"))
  let dev ← pyGet fs ("device_name") (.str ("Unknown"))
  let size ← pyGet fs ("size") (.num 0)
  let sizeK ← pyDivC size 1024
  let used ← pyGet fs ("used") (.num 0)
  let usedK ← pyDivC used 1024
  let free ← pyGet fs ("free") (.num 0)
  let freeK ← pyDivC free 1024
  let pct ← pyGet fs ("percent") (.num 0)
  pure ("\n挂载点: " ++ pyStr mnt ++ "\n设备: " ++ pyStr dev ++
    "\n总空间: " ++ formatFixed2 (sizeK / 1024 / 1024) ++
    " GB\n已用: " ++ formatFixed2 (usedK / 1024 / 1024) ++
    " GB\n可用: " ++ formatFixed2 (freeK / 1024 / 1024) ++
    " GB\n使用率: " ++ pyStr pct ++ "%\n")

/-- `get_fs_info` tool. -/
def get_fs_info (http : String → Option Json) (server_id : Option String)
    (st : RegState) : Except PyErr String := do
  let data ← make_glances_request http ("fs") server_id st
  match data with
  | none => pure ("无法获取文件系统信息。")
  | some j =>
      if !j.truthy then pure ("无法获取文件系统信息。")
      else do
        let items ← pyIter j
        let entries ← items.mapM fsEntry
        pure ("文件系统信息:\n" ++ String.join entries)

/-- `get_uptime` tool: `int(data)` seconds decomposed by Python floor
division and floor modulo (`Int.fdiv`/`Int.fmod`) into days, hours and
minutes.  A falsy payload — including a successful response of 0
seconds — yields the unavailable message. -/
def get_uptime (http : String → Option Json) (server_id : Option String)
    (st : RegState) : Except PyErr String := do
  let data ← make_glances_request http ("uptime") server_id st
  match data with
  | none => pure ("无法获取系统运行时间。")
  | some j =>
      if !j.truthy then pure ("无法获取系统运行时间。")
      else do
        let seconds ← pyInt j
        let days := Int.fdiv seconds 86400
        let hours := Int.fdiv (Int.fmod seconds 86400) 3600
        let minutes := Int.fdiv (Int.fmod seconds 3600) 60
        pure ("系统已运行: " ++ toString days ++ "天 " ++ toString hours ++
          "小时 " ++ toString minutes ++ "分钟")

/-- `get_all_stats` tool: after a truthy probe of the `all` endpoint
it concatenates the header and the six sub-handler outputs, inserting a
newline before each output after the first; each sub-handler re-resolves
the server id itself.  Wrapped in `try/except ValueError`. -/
def get_all_stats (http : String → Option Json) (server_id : Option String)
    (st : RegState) : Except PyErr String :=
  catchValueError (do
    let data ← make_glances_request http ("all") server_id st
    match data with
    | none => pure ("无法获取服务器 \x27" ++ optStr server_id ++ "\x27 的系统统计信息。")
    | some j =>
        if !j.truthy then
          pure ("无法获取服务器 \x27" ++ optStr server_id ++ "\x27 的系统统计信息。")
        else do
          let info ← serversIndex st server_id
          let s1 ← get_system_info http server_id st
          let s2 ← get_cpu_info http server_id st
          let s3 ← get_memory_info http server_id st
          let s4 ← get_disk_io_info http server_id st
          let s5 ← get_network_info http server_id st
          let s6 ← get_uptime http server_id st
          pure ("服务器 \x27" ++ info.name ++ "\x27 的统计信息汇总:\n" ++
            s1 ++ "\n" ++ s2 ++ "\n" ++ s3 ++ "\n" ++ s4 ++ "\n" ++ s5 ++ "\n" ++ s6))

/-- `get_process_count` tool. -/
def get_process_count (http : String → Option Json) (server_id : Option String)
    (st : RegState) : Except PyErr String := do
  let data ← make_glances_request http ("processcount") server_id st
  match data with
  | none => pure ("无法获取进程统计信息。")
  | some j =>
      if !j.truthy then pure ("无法获取进程统计信息。")
      else format_process_count j

/-- `get_connections_stats` tool. -/
def get_connections_stats (http : String → Option Json) (server_id : Option String)
    (st : RegState) : Except PyErr String := do
  let data ← make_glances_request http ("connections") server_id st
  match data with
  | none => pure ("无法获取网络连接统计信息。")
  | some j =>
      if !j.truthy then pure ("无法获取网络连接统计信息。")
      else format_connections_info j

/-- `get_ip_addresses` tool. -/
def get_ip_addresses (http : String → Option Json) (server_id : Option String)
    (st : RegState) : Except PyErr String := do
  let data ← make_glances_request http ("ip") server_id st
  match data with
  | none => pure ("无法获取IP地址信息。")
  | some j =>
      if !j.truthy then pure ("无法获取IP地址信息。")
      else format_ip_info j

/-- `get_load_average` tool: the three load values are formatted with
`.2f` directly, the core count is interpolated as-is. -/
def get_load_average (http : String → Option Json) (server_id : Option String)
    (st : RegState) : Except PyErr String := do
  let data ← make_glances_request http ("load") server_id st
  match data with
  | none => pure ("无法获取系统负载信息。")
  | some j =>
      if !j.truthy then pure ("无法获取系统负载信息。")
      else do
        let m1 ← pyGet j ("min1") (.num 0)
        let f1 ← pyFixed2 m1
        let m5 ← pyGet j ("min5") (.num 0)
        let f5 ← pyFixed2 m5
        let m15 ← pyGet j ("min15") (.num 0)
        let f15 ← pyFixed2 m15
        let cores ← pyGet j ("cpucore") (.num 0)
        pure ("\n系统负载:\n1分钟: " ++ f1 ++ "\n5分钟: " ++ f5 ++
          "\n15分钟: " ++ f15 ++ "\nCPU核心数: " ++ pyStr cores ++ "\n")

/-- `get_swap_info` tool: byte fields divided by 1024 twice and labeled
"MB" unconditionally. -/
def get_swap_info (http : String → Option Json) (server_id : Option String)
    (st : RegState) : Except PyErr String := do
  let data ← make_glances_request http ("memswap") server_id st
  match data with
  | none => pure ("无法获取交换分区信息。")
  | some j =>
      if !j.truthy then pure ("无法获取交换分区信息。")
      else do
        let total ← pyGet j ("total") (.num 0)
        let totalK ← pyDivC total 1024
        let used ← pyGet j ("used") (.num 0)
        let usedK ← pyDivC used 1024
        let free ← pyGet j ("free") (.num 0)
        let freeK ← pyDivC free 1024
        let pct ← pyGet j ("percent") (.num 0)
        pure ("\n交换分区信息:\n总大小: " ++ formatFixed2 (totalK / 1024) ++
          " MB\n已使用: " ++ formatFixed2 (usedK / 1024) ++
          " MB\n空闲: " ++ formatFixed2 (freeK / 1024) ++
          " MB\n使用率: " ++ pyStr pct ++ "%\n")

/-- `get_version_info` tool. -/
def get_version_info (http : String → Option Json) (server_id : Option String)
    (st : RegState) : Except PyErr String := do
  let data ← make_glances_request http ("version") server_id st
  match data with
  | none => pure ("无法获取版本信息。")
  | some j =>
      if !j.truthy then pure ("无法获取版本信息。")
      else do
        let ver ← pyGet j ("version") (.str ("Unknown"))
        let sys ← pyGet j ("system") (.str ("Unknown"))
        let pyv ← pyGet j ("python_version") (.str ("Unknown"))
        pure ("\nGlances版本信息:\n版本号: " ++ pyStr ver ++ "\n系统: " ++ pyStr sys ++
          "\nPython版本: " ++ pyStr pyv ++ "\n")

/-- One process block of `get_process_list`. -/
def processListEntry (proc : Json) : Except PyErr String := do
  let pid ← pyGet proc ("pid") (.str ("Unknown"))
  let nm ← pyGet proc ("name") (.str ("Unknown"))
  let cmd ← pyGet proc ("cmdline") (.str ("Unknown"))
  let usr ← pyGet proc ("username") (.str ("Unknown"))
  let nth ← pyGet proc ("num_threads") (.num 0)
  let cpu ← pyGet proc ("cpu_percent") (.num 0)
  let mem ← pyGet proc ("memory_percent") (.num 0)
  pure ("\nPID: " ++ pyStr pid ++ "\n名称: " ++ pyStr nm ++
    "\n命令行: " ++ pyStr cmd ++ "\n用户名: " ++ pyStr usr ++
    "\n线程数: " ++ pyStr nth ++ "\nCPU使用率: " ++ pyStr cpu ++
    "%\n内存使用率: " ++ pyStr mem ++ "%\n")

/-- `get_process_list` tool: the full (untruncated) process listing. -/
def get_process_list (http : String → Option Json) (server_id : Option String)
    (st : RegState) : Except PyErr String := do
  let data ← make_glances_request http ("processlist") server_id st
  match data with
  | none => pure ("无法获取服务器 \x27" ++ optStr server_id ++ "\x27 的进程列表信息。")
  | some j =>
      if !j.truthy then
        pure ("无法获取服务器 \x27" ++ optStr server_id ++ "\x27 的进程列表信息。")
      else do
        let items ← pyIter j
        let entries ← items.mapM processListEntry
        pure ("进程信息:\n" ++ String.join entries)

/-- Test fixture: the first configured server. -/
def info1 : ServerInfo := ⟨"S1", "http://s", "测试服"⟩

/-- Test fixture: the second configured server, whose description
contains the production marker. -/
def info2 : ServerInfo := ⟨"S2", "http://t", "生产环境"⟩

/-- Test fixture: a registry with two servers and `server1` as
default. -/
def st0 : RegState :=
  { servers := [(("server1"), info1), (("server2"), info2)],
    defaultId := "server1",
    defaultEnv := "test" }

/-- Test fixture: a transport for `get_all_stats` — the network
endpoint answers an empty list (falsy), the uptime endpoint 5 seconds,
every other endpoint a dict with one empty-dict entry. -/
def http5 : String → Option Json := fun u =>
  if u = ("http://s/network") then some (Json.arr [])
  else if u = ("http://s/uptime") then some (Json.num 5)
  else some (Json.obj [(("a"), Json.obj [])])

/-- The shape condition under which a defensively-accessed nested field
cannot raise: if the key is present at all, its value is a JSON
object. -/
def fieldObjOrAbsent (kvs : List (String × Json)) (k : String) : Prop :=
  ∀ v, kvs.lookup k = some v → ∃ fs, v = Json.obj fs

/-- The registry invariant stated by the spec: the default id, if set,
references an existing entry of the mapping. -/
@[reducible] def registryInv (st : RegState) : Prop :=
  (st.servers.lookup st.defaultId).isSome = true

/-- C8 (confirmed): the byte-formatting function maps 0 to "0.00 B",
1023 to "1023.00 B", 1024 to "1.00 KB", 1048576 to "1.00 MB" and
1125899906842624 to "1.00 PB". -/
theorem format_bytes_values :
    format_bytes 0 = ("0.00 B") ∧
    format_bytes 1023 = ("1023.00 B") ∧
    format_bytes 1024 = ("1.00 KB") ∧
    format_bytes 1048576 = ("1.00 MB") ∧
    format_bytes 1125899906842624 = ("1.00 PB") := by
  refine ⟨?_, ?_, ?_, ?_, ?_⟩ <;> rfl

theorem lookup_filter_ne (l : List (String × ServerInfo)) (k s : String) (h : k ≠ s) :
    (l.filter (fun p => p.1 != s)).lookup k = l.lookup k := by
  induction l with
  | nil => rfl
  | cons a l ih =>
    rcases a with ⟨ak, av⟩
    by_cases ha : ak = s
    · subst ha
      have hk : (k == ak) = false := by simp [h]
      simp [List.filter_cons, List.lookup, hk, ih]
    · by_cases hk : k = ak
      · subst hk
        simp [List.filter_cons, ha, List.lookup]
      · have hk' : (k == ak) = false := by simp [hk]
        simp [List.filter_cons, ha, List.lookup, hk', ih]

theorem lookup_append_of_isSome (l m : List (String × ServerInfo)) (k : String)
    (h : (l.lookup k).isSome = true) : (l ++ m).lookup k = l.lookup k := by
  induction l with
  | nil => simp [List.lookup] at h
  | cons a l ih =>
    rcases a with ⟨ak, av⟩
    by_cases hk : k = ak
    · subst hk
      simp [List.lookup]
    · have hk' : (k == ak) = false := by simp [hk]
      simp only [List.cons_append, List.lookup, hk'] at h ⊢
      exact ih h

/-- C2 (corrected, counterexample): removing the entry the default
pointer references succeeds and leaves the default id dangling, so the
invariant is not preserved by every registry operation sequence. -/
theorem remove_default_breaks_invariant :
    registryInv st0 ∧
    (remove_server ("server1") st0).1 = ("成功删除服务器 \x27server1\x27") ∧
    ¬ registryInv ((remove_server ("server1") st0).2) := by
  refine ⟨by decide, by rfl, by decide⟩

/-- C2 (corrected): `add` and `setDefault` preserve the registry
invariant (`setDefault` fails before mutating on an unknown id), and
`remove` preserves it only when the removed id is not the current
default — `remove_server` never consults the default pointer. -/
theorem registry_invariant_preservation (st : RegState) (hinv : registryInv st) :
    (∀ sid name url desc, registryInv ((add_server sid name url desc st).2)) ∧
    (∀ sid, registryInv ((set_default_server sid st).2)) ∧
    (∀ sid, sid ≠ st.defaultId → registryInv ((remove_server sid st).2)) := by
  refine ⟨?_, ?_, ?_⟩
  · intro sid name url desc
    by_cases h : (st.servers.lookup sid).isSome
    · simpa [add_server, h, registryInv] using hinv
    · simp only [add_server, h, Bool.false_eq_true, if_false, registryInv] at hinv ⊢
      rw [lookup_append_of_isSome _ _ _ hinv]
      exact hinv
  · intro sid
    rcases hs : st.servers.lookup sid with _ | info
    · simpa [set_default_server, set_default_server_id, hs, registryInv] using hinv
    · simp [set_default_server, set_default_server_id, hs, registryInv]
  · intro sid hne
    by_cases h : (st.servers.lookup sid).isSome
    · simp only [remove_server, h, if_true, registryInv]
      rw [lookup_filter_ne _ _ _ (Ne.symm hne)]
      exact hinv
    · simpa [remove_server, h, registryInv] using hinv

/-- C2 witness: on the concrete two-server registry, adding a fresh id,
selecting the second server as default, and removing a non-default id
all preserve the invariant. -/
theorem registry_invariant_preservation_w :
    registryInv ((add_server ("x") ("N") ("U") ("D") st0).2) ∧
    registryInv ((set_default_server ("server2") st0).2) ∧
    registryInv ((remove_server ("server2") st0).2) :=
  ⟨(registry_invariant_preservation st0 (by decide)).1 ("x") ("N") ("U") ("D"),
   (registry_invariant_preservation st0 (by decide)).2.1 ("server2"),
   (registry_invariant_preservation st0 (by decide)).2.2 ("server2") (by decide)⟩

/-- C7 (confirmed): `setDefault` on an unknown id returns the error text
and leaves the whole default state (id and env tag) unchanged; on a
known id the default id becomes that id and resolving with the id
omitted yields the same url as resolving it explicitly. -/
theorem set_default_server_contract (st : RegState) (sid : String) :
    (st.servers.lookup sid = none →
      (set_default_server sid st).1 = .ok ("未找到服务器配置: " ++ sid) ∧
      (set_default_server sid st).2 = st) ∧
    (∀ info, st.servers.lookup sid = some info →
      get_default_server_id ((set_default_server sid st).2) = sid ∧
      get_server_url none ((set_default_server sid st).2) = .ok (info.url) ∧
      get_server_url (some sid) ((set_default_server sid st).2) = .ok (info.url)) := by
  constructor
  · intro h
    simp [set_default_server, set_default_server_id, h]
  · intro info h
    simp [set_default_server, set_default_server_id, h, get_default_server_id,
      get_server_url]

/-- C7 witness: on the concrete registry, `setDefault("ghost")` keeps
the state, and `setDefault("server2")` makes the default resolve to the
second server's url both implicitly and explicitly. -/
theorem set_default_server_contract_w :
    ((set_default_server ("ghost") st0).2 = st0) ∧
    (get_default_server_id ((set_default_server ("server2") st0).2) = ("server2")) ∧
    (get_server_url none ((set_default_server ("server2") st0).2) = .ok ("http://t")) ∧
    (get_server_url (some ("server2")) ((set_default_server ("server2") st0).2) =
      .ok ("http://t")) :=
  ⟨((set_default_server_contract st0 ("ghost")).1 (by rfl)).2,
   ((set_default_server_contract st0 ("server2")).2 info2 (by rfl)).1,
   ((set_default_server_contract st0 ("server2")).2 info2 (by rfl)).2.1,
   ((set_default_server_contract st0 ("server2")).2 info2 (by rfl)).2.2⟩

@[simp] theorem exceptPure_eq {α : Type} (a : α) : (pure a : Except PyErr α) = Except.ok a := rfl

@[simp] theorem exceptBind_ok {α β : Type} (a : α) (k : α → Except PyErr β) :
    (Except.ok a : Except PyErr α) >>= k = k a := rfl

@[simp] theorem exceptBind_error {α β : Type} (e : PyErr) (k : α → Except PyErr β) :
    (Except.error e : Except PyErr α) >>= k = Except.error e := rfl

/-- C1 (corrected, counterexample): passing an unknown server id to the
`get_cpu_info` telemetry handler raises `ValueError` across the
operation boundary instead of returning a descriptive message. -/
theorem get_cpu_info_unknown_id_raises :
    get_cpu_info (fun _ => none) (some ("ghost")) st0 =
      .error (.valueError ("未找到服务器配置: ghost")) := by rfl

/-- C1 (corrected): only the handlers wrapped in `try/except ValueError`
(`get_system_info`, `get_process_info`, `get_all_stats`,
`set_default_server`) convert an unknown server id into descriptive
text; every other handler taking a server id propagates the
`ValueError` to its caller. -/
theorem handlers_unknown_server_id (http : String → Option Json)
    (httpPost : String → Bool) (st : RegState) (sid : String)
    (h : st.servers.lookup sid = none) :
    get_system_info http (some sid) st = .ok ("未找到服务器配置: " ++ sid) ∧
    get_uptime http (some sid) st = .error (.valueError ("未找到服务器配置: " ++ sid)) ∧
    (set_default_server sid st).1 = .ok ("未找到服务器配置: " ++ sid) ∧
    (set_default_server sid st).2 = st ∧
    get_process_info http (some sid) st = .ok ("未找到服务器配置: " ++ sid) ∧
    get_all_stats http (some sid) st = .ok ("未找到服务器配置: " ++ sid) ∧
    get_network_info http (some sid) st = .error (.valueError ("未找到服务器配置: " ++ sid)) ∧
    get_alert_info http (some sid) st = .error (.valueError ("未找到服务器配置: " ++ sid)) ∧
    clear_all_alerts httpPost (some sid) st =
      .error (.valueError ("未找到服务器配置: " ++ sid)) ∧
    get_cpu_info http (some sid) st = .error (.valueError ("未找到服务器配置: " ++ sid)) ∧
    get_memory_info http (some sid) st = .error (.valueError ("未找到服务器配置: " ++ sid)) ∧
    get_disk_io_info http (some sid) st = .error (.valueError ("未找到服务器配置: " ++ sid)) ∧
    get_plugins_list http (some sid) st = .error (.valueError ("未找到服务器配置: " ++ sid)) ∧
    get_sensors_info http (some sid) st = .error (.valueError ("未找到服务器配置: " ++ sid)) ∧
    get_docker_info http (some sid) st = .error (.valueError ("未找到服务器配置: " ++ sid)) ∧
    get_gpu_info http (some sid) st = .error (.valueError ("未找到服务器配置: " ++ sid)) ∧
    get_quicklook http (some sid) st = .error (.valueError ("未找到服务器配置: " ++ sid)) ∧
    get_fs_info http (some sid) st = .error (.valueError ("未找到服务器配置: " ++ sid)) ∧
    get_process_count http (some sid) st =
      .error (.valueError ("未找到服务器配置: " ++ sid)) ∧
    get_connections_stats http (some sid) st =
      .error (.valueError ("未找到服务器配置: " ++ sid)) ∧
    get_ip_addresses http (some sid) st =
      .error (.valueError ("未找到服务器配置: " ++ sid)) ∧
    get_load_average http (some sid) st =
      .error (.valueError ("未找到服务器配置: " ++ sid)) ∧
    get_swap_info http (some sid) st = .error (.valueError ("未找到服务器配置: " ++ sid)) ∧
    get_version_info http (some sid) st =
      .error (.valueError ("未找到服务器配置: " ++ sid)) ∧
    get_process_list http (some sid) st =
      .error (.valueError ("未找到服务器配置: " ++ sid)) := by
  have hg : get_server_url (some sid) st = .error ("未找到服务器配置: " ++ sid) := by
    simp [get_server_url, h]
  have hr : ∀ ep, make_glances_request http ep (some sid) st =
      .error (.valueError ("未找到服务器配置: " ++ sid)) := by
    intro ep; simp [make_glances_request, hg]
  have hp : make_glances_post_request httpPost ("events/clear/all") (some sid) st =
      .error (.valueError ("未找到服务器配置: " ++ sid)) := by
    simp [make_glances_post_request, hg]
  refine ⟨?_, ?_, ?_, ?_, ?_, ?_, ?_, ?_, ?_, ?_, ?_, ?_, ?_, ?_, ?_, ?_, ?_, ?_,
    ?_, ?_, ?_, ?_, ?_, ?_, ?_⟩
  · simp [get_system_info, hr, exceptBind_error, catchValueError]
  · simp [get_uptime, hr, exceptBind_error]
  · simp [set_default_server, set_default_server_id, h]
  · simp [set_default_server, set_default_server_id, h]
  · simp [get_process_info, hr, exceptBind_error, catchValueError]
  · simp [get_all_stats, hr, exceptBind_error, catchValueError]
  · simp [get_network_info, hr, exceptBind_error]
  · simp [get_alert_info, hr, exceptBind_error]
  · simp [clear_all_alerts, hp, exceptBind_error]
  · simp [get_cpu_info, hr, exceptBind_error]
  · simp [get_memory_info, hr, exceptBind_error]
  · simp [get_disk_io_info, hr, exceptBind_error]
  · simp [get_plugins_list, hr, exceptBind_error]
  · simp [get_sensors_info, hr, exceptBind_error]
  · simp [get_docker_info, hr, exceptBind_error]
  · simp [get_gpu_info, hr, exceptBind_error]
  · simp [get_quicklook, hr, exceptBind_error]
  · simp [get_fs_info, hr, exceptBind_error]
  · simp [get_process_count, hr, exceptBind_error]
  · simp [get_connections_stats, hr, exceptBind_error]
  · simp [get_ip_addresses, hr, exceptBind_error]
  · simp [get_load_average, hr, exceptBind_error]
  · simp [get_swap_info, hr, exceptBind_error]
  · simp [get_version_info, hr, exceptBind_error]
  · simp [get_process_list, hr, exceptBind_error]

/-- C1 witness: on the concrete registry with the unknown id "ghost",
`get_system_info` answers the resolution message while `get_uptime`
raises. -/
theorem handlers_unknown_server_id_w :
    get_system_info (fun _ => none) (some ("ghost")) st0 =
      .ok ("未找到服务器配置: ghost") ∧
    get_uptime (fun _ => none) (some ("ghost")) st0 =
      .error (.valueError ("未找到服务器配置: ghost")) :=
  ⟨(handlers_unknown_server_id (fun _ => none) (fun _ => false) st0 ("ghost") (by rfl)).1,
   (handlers_unknown_server_id (fun _ => none) (fun _ => false) st0 ("ghost") (by rfl)).2.1⟩

/-- C6 (corrected, counterexample): even with the always-absent adapter,
an unknown server id makes `get_memory_info` raise `ValueError` rather
than return its unavailable message, so the claim's quantification over
every server id fails. -/
theorem get_memory_info_unknown_id_under_absent_adapter :
    get_memory_info (fun _ => none) (some ("ghost")) st0 =
      .error (.valueError ("未找到服务器配置: ghost")) := by rfl

/-- C6 (corrected): restricted to a server id that resolves (an explicit
known id, or an omitted id whose default is registered), every telemetry
handler under the always-absent adapter returns its category-specific
unavailable message and never raises. -/
theorem handlers_absent_data_unavailable (st : RegState) (sid : Option String)
    (h : (st.servers.lookup (sid.getD st.defaultId)).isSome = true) :
    get_system_info (fun _ => none) sid st =
      .ok ("无法获取服务器 \x27" ++ optStr sid ++ "\x27 的系统信息。") ∧
    get_process_info (fun _ => none) sid st =
      .ok ("无法获取服务器 \x27" ++ optStr sid ++ "\x27 的进程信息。") ∧
    get_network_info (fun _ => none) sid st = .ok ("无法获取网络信息。") ∧
    get_alert_info (fun _ => none) sid st = .ok ("无法获取告警信息。") ∧
    get_cpu_info (fun _ => none) sid st = .ok ("无法获取CPU信息。") ∧
    get_memory_info (fun _ => none) sid st = .ok ("无法获取内存信息。") ∧
    get_disk_io_info (fun _ => none) sid st = .ok ("无法获取磁盘I/O信息。") ∧
    get_plugins_list (fun _ => none) sid st = .ok ("无法获取插件列表。") ∧
    get_sensors_info (fun _ => none) sid st = .ok ("无法获取传感器信息。") ∧
    get_docker_info (fun _ => none) sid st = .ok ("无法获取Docker容器信息。") ∧
    get_gpu_info (fun _ => none) sid st = .ok ("无法获取GPU信息。") ∧
    get_quicklook (fun _ => none) sid st = .ok ("无法获取系统概览信息。") ∧
    get_fs_info (fun _ => none) sid st = .ok ("无法获取文件系统信息。") ∧
    get_uptime (fun _ => none) sid st = .ok ("无法获取系统运行时间。") ∧
    get_all_stats (fun _ => none) sid st =
      .ok ("无法获取服务器 \x27" ++ optStr sid ++ "\x27 的系统统计信息。") ∧
    get_process_count (fun _ => none) sid st = .ok ("无法获取进程统计信息。") ∧
    get_connections_stats (fun _ => none) sid st = .ok ("无法获取网络连接统计信息。") ∧
    get_ip_addresses (fun _ => none) sid st = .ok ("无法获取IP地址信息。") ∧
    get_load_average (fun _ => none) sid st = .ok ("无法获取系统负载信息。") ∧
    get_swap_info (fun _ => none) sid st = .ok ("无法获取交换分区信息。") ∧
    get_version_info (fun _ => none) sid st = .ok ("无法获取版本信息。") ∧
    get_process_list (fun _ => none) sid st =
      .ok ("无法获取服务器 \x27" ++ optStr sid ++ "\x27 的进程列表信息。") := by
  obtain ⟨info, hinfo⟩ := Option.isSome_iff_exists.mp h
  have hg : get_server_url sid st = .ok (info.url) := by
    simp [get_server_url, hinfo]
  have hr : ∀ ep, make_glances_request (fun _ => none) ep sid st = .ok none := by
    intro ep; simp [make_glances_request, hg]
  refine ⟨?_, ?_, ?_, ?_, ?_, ?_, ?_, ?_, ?_, ?_, ?_, ?_, ?_, ?_, ?_, ?_, ?_, ?_,
    ?_, ?_, ?_, ?_⟩
  · simp [get_system_info, hr, exceptBind_ok, catchValueError]
  · simp [get_process_info, hr, exceptBind_ok, catchValueError]
  · simp [get_network_info, hr, exceptBind_ok]
  · simp [get_alert_info, hr, exceptBind_ok]
  · simp [get_cpu_info, hr, exceptBind_ok]
  · simp [get_memory_info, hr, exceptBind_ok]
  · simp [get_disk_io_info, hr, exceptBind_ok]
  · simp [get_plugins_list, hr, exceptBind_ok]
  · simp [get_sensors_info, hr, exceptBind_ok]
  · simp [get_docker_info, hr, exceptBind_ok]
  · simp [get_gpu_info, hr, exceptBind_ok]
  · simp [get_quicklook, hr, exceptBind_ok]
  · simp [get_fs_info, hr, exceptBind_ok]
  · simp [get_uptime, hr, exceptBind_ok]
  · simp [get_all_stats, hr, exceptBind_ok, catchValueError]
  · simp [get_process_count, hr, exceptBind_ok]
  · simp [get_connections_stats, hr, exceptBind_ok]
  · simp [get_ip_addresses, hr, exceptBind_ok]
  · simp [get_load_average, hr, exceptBind_ok]
  · simp [get_swap_info, hr, exceptBind_ok]
  · simp [get_version_info, hr, exceptBind_ok]
  · simp [get_process_list, hr, exceptBind_ok]

/-- C6 witness: on the concrete registry with the valid id "server1" and
the always-absent adapter, `get_cpu_info` and `get_system_info` answer
their unavailable messages. -/
theorem handlers_absent_data_unavailable_w :
    get_cpu_info (fun _ => none) (some ("server1")) st0 = .ok ("无法获取CPU信息。") ∧
    get_system_info (fun _ => none) (some ("server1")) st0 =
      .ok ("无法获取服务器 \x27server1\x27 的系统信息。") :=
  ⟨(handlers_absent_data_unavailable st0 (some ("server1")) (by rfl)).2.2.2.2.1,
   (handlers_absent_data_unavailable st0 (some ("server1")) (by rfl)).1⟩

/-- C10 (confirmed): every telemetry handler tests the fetched payload
for truthiness, so a successful response whose body is falsy (empty
dict, empty list, or 0) yields exactly the message of a failed request;
`get_uptime` of 0 seconds reports unavailable; the one exception is
`get_alert_info`, which tests for `None` and renders an empty alert list
as the distinct no-alerts message. -/
theorem handlers_truthiness_not_absence (st : RegState) (sid : Option String)
    (h : (st.servers.lookup (sid.getD st.defaultId)).isSome = true)
    (j : Json) (hj : j.truthy = false) :
    get_system_info (fun _ => some j) sid st = get_system_info (fun _ => none) sid st ∧
    get_process_info (fun _ => some j) sid st = get_process_info (fun _ => none) sid st ∧
    get_network_info (fun _ => some j) sid st = get_network_info (fun _ => none) sid st ∧
    get_cpu_info (fun _ => some j) sid st = get_cpu_info (fun _ => none) sid st ∧
    get_memory_info (fun _ => some j) sid st = get_memory_info (fun _ => none) sid st ∧
    get_disk_io_info (fun _ => some j) sid st = get_disk_io_info (fun _ => none) sid st ∧
    get_plugins_list (fun _ => some j) sid st = get_plugins_list (fun _ => none) sid st ∧
    get_sensors_info (fun _ => some j) sid st = get_sensors_info (fun _ => none) sid st ∧
    get_docker_info (fun _ => some j) sid st = get_docker_info (fun _ => none) sid st ∧
    get_gpu_info (fun _ => some j) sid st = get_gpu_info (fun _ => none) sid st ∧
    get_quicklook (fun _ => some j) sid st = get_quicklook (fun _ => none) sid st ∧
    get_fs_info (fun _ => some j) sid st = get_fs_info (fun _ => none) sid st ∧
    get_uptime (fun _ => some j) sid st = get_uptime (fun _ => none) sid st ∧
    get_all_stats (fun _ => some j) sid st = get_all_stats (fun _ => none) sid st ∧
    get_process_count (fun _ => some j) sid st =
      get_process_count (fun _ => none) sid st ∧
    get_connections_stats (fun _ => some j) sid st =
      get_connections_stats (fun _ => none) sid st ∧
    get_ip_addresses (fun _ => some j) sid st = get_ip_addresses (fun _ => none) sid st ∧
    get_load_average (fun _ => some j) sid st = get_load_average (fun _ => none) sid st ∧
    get_swap_info (fun _ => some j) sid st = get_swap_info (fun _ => none) sid st ∧
    get_version_info (fun _ => some j) sid st = get_version_info (fun _ => none) sid st ∧
    get_process_list (fun _ => some j) sid st = get_process_list (fun _ => none) sid st ∧
    get_uptime (fun _ => some (Json.num 0)) sid st = .ok ("无法获取系统运行时间。") ∧
    get_alert_info (fun _ => some (Json.arr [])) sid st = .ok ("当前没有告警信息") ∧
    get_alert_info (fun _ => none) sid st = .ok ("无法获取告警信息。") := by
  obtain ⟨info, hinfo⟩ := Option.isSome_iff_exists.mp h
  have hg : get_server_url sid st = .ok (info.url) := by
    simp [get_server_url, hinfo]
  have hrj : ∀ ep, make_glances_request (fun _ => some j) ep sid st = .ok (some j) := by
    intro ep; simp [make_glances_request, hg]
  have hrn : ∀ ep, make_glances_request (fun _ => none) ep sid st = .ok none := by
    intro ep; simp [make_glances_request, hg]
  have hr0 : ∀ ep, make_glances_request (fun _ => some (Json.num 0)) ep sid st =
      .ok (some (Json.num 0)) := by
    intro ep; simp [make_glances_request, hg]
  have hrA : ∀ ep, make_glances_request (fun _ => some (Json.arr [])) ep sid st =
      .ok (some (Json.arr [])) := by
    intro ep; simp [make_glances_request, hg]
  have h0 : (Json.num 0).truthy = false := by decide
  refine ⟨?_, ?_, ?_, ?_, ?_, ?_, ?_, ?_, ?_, ?_, ?_, ?_, ?_, ?_, ?_, ?_, ?_, ?_,
    ?_, ?_, ?_, ?_, ?_, ?_⟩
  · simp [get_system_info, hrj, hrn, exceptBind_ok, hj]
  · simp [get_process_info, hrj, hrn, exceptBind_ok, hj]
  · simp [get_network_info, hrj, hrn, exceptBind_ok, hj]
  · simp [get_cpu_info, hrj, hrn, exceptBind_ok, hj]
  · simp [get_memory_info, hrj, hrn, exceptBind_ok, hj]
  · simp [get_disk_io_info, hrj, hrn, exceptBind_ok, hj]
  · simp [get_plugins_list, hrj, hrn, exceptBind_ok, hj]
  · simp [get_sensors_info, hrj, hrn, exceptBind_ok, hj]
  · simp [get_docker_info, hrj, hrn, exceptBind_ok, hj]
  · simp [get_gpu_info, hrj, hrn, exceptBind_ok, hj]
  · simp [get_quicklook, hrj, hrn, exceptBind_ok, hj]
  · simp [get_fs_info, hrj, hrn, exceptBind_ok, hj]
  · simp [get_uptime, hrj, hrn, exceptBind_ok, hj]
  · simp [get_all_stats, hrj, hrn, exceptBind_ok, hj]
  · simp [get_process_count, hrj, hrn, exceptBind_ok, hj]
  · simp [get_connections_stats, hrj, hrn, exceptBind_ok, hj]
  · simp [get_ip_addresses, hrj, hrn, exceptBind_ok, hj]
  · simp [get_load_average, hrj, hrn, exceptBind_ok, hj]
  · simp [get_swap_info, hrj, hrn, exceptBind_ok, hj]
  · simp [get_version_info, hrj, hrn, exceptBind_ok, hj]
  · simp [get_process_list, hrj, hrn, exceptBind_ok, hj]
  · simp [get_uptime, hr0, exceptBind_ok, h0]
  · simp [get_alert_info, hrA, exceptBind_ok, format_alert_info, Json.truthy]
  · simp [get_alert_info, hrn, exceptBind_ok]

/-- C10 witness: on the concrete registry, a falsy (empty-dict) payload
gives `get_cpu_info` the same reply as an absent one, 0 uptime seconds
report unavailable, and the empty alert list renders the distinct
no-alerts message. -/
theorem handlers_truthiness_not_absence_w :
    get_cpu_info (fun _ => some (Json.obj [])) (some ("server1")) st0 =
      get_cpu_info (fun _ => none) (some ("server1")) st0 ∧
    get_uptime (fun _ => some (Json.num 0)) (some ("server1")) st0 =
      .ok ("无法获取系统运行时间。") ∧
    get_alert_info (fun _ => some (Json.arr [])) (some ("server1")) st0 =
      .ok ("当前没有告警信息") :=
  ⟨(handlers_truthiness_not_absence st0 (some ("server1")) (by rfl) (Json.obj [])
      (by decide)).2.2.2.1,
   (handlers_truthiness_not_absence st0 (some ("server1")) (by rfl) (Json.obj [])
      (by decide)).2.2.2.2.2.2.2.2.2.2.2.2.2.2.2.2.2.2.2.2.2.1,
   (handlers_truthiness_not_absence st0 (some ("server1")) (by rfl) (Json.obj [])
      (by decide)).2.2.2.2.2.2.2.2.2.2.2.2.2.2.2.2.2.2.2.2.2.2.1⟩

/-- C3 (corrected, counterexample): a container whose image field is
present but an empty list makes `format_docker_info` raise `IndexError`
(`container.get('image', ['Unknown'])[0]`), so the formatters are not
total on arbitrary JSON-like input. -/
theorem format_docker_info_empty_image_raises :
    format_docker_info (Json.arr [Json.obj [(("image"), Json.arr [])]]) =
      .error .indexError := by rfl

/-- C3 (corrected): formatters do render absent fields as 0 / 0% /
"Unknown" and are total when present nested fields have the expected
shapes; but a present wrong-shaped field (an empty image list, a
non-object cpu) raises instead of degrading. -/
theorem formatters_defensive_defaults :
    (∀ kvs, fieldObjOrAbsent kvs ("cpu") → fieldObjOrAbsent kvs ("mem") →
      fieldObjOrAbsent kvs ("diskio") →
      ∃ s, format_system_info (Json.obj kvs) = .ok s) ∧
    format_system_info (Json.obj []) =
      .ok ("\n系统信息:\n主机名: Unknown\n操作系统: Unknown \nCPU使用率: 0%\n内存使用率: 0%\n磁盘使用率: 0%\n") ∧
    format_cpu_info (Json.obj []) =
      .ok ("\nCPU信息:\n总使用率: 0%\n用户空间: 0%\n系统空间: 0%\n空闲: 0%\nI/O等待: 0%\n") ∧
    format_docker_info (Json.arr [Json.obj []]) =
      .ok ("Docker容器信息:\n\n容器ID: Unknown\n名称: Unknown\n镜像: Unknown\n状态: Unknown\nCPU使用率: 0%\n内存使用率: 0%\n") ∧
    format_memory_info (Json.obj []) =
      .ok ("\n内存信息:\n总内存: 0.00 MB\n已使用: 0.00 MB\n空闲: 0.00 MB\n使用率: 0%\n") := by
  refine ⟨?_, by rfl, by rfl, by rfl, by rfl⟩
  intro kvs h1 h2 h3
  have hcpu : ∃ fs, ((kvs.lookup ("cpu")).getD (Json.obj [])) = Json.obj fs := by
    cases hc : kvs.lookup ("cpu") with
    | none => exact ⟨[], rfl⟩
    | some v =>
        obtain ⟨fs, rfl⟩ := h1 v hc
        exact ⟨fs, rfl⟩
  have hmem : ∃ fs, ((kvs.lookup ("mem")).getD (Json.obj [])) = Json.obj fs := by
    cases hc : kvs.lookup ("mem") with
    | none => exact ⟨[], rfl⟩
    | some v =>
        obtain ⟨fs, rfl⟩ := h2 v hc
        exact ⟨fs, rfl⟩
  have hdio : ∃ fs, ((kvs.lookup ("diskio")).getD (Json.obj [])) = Json.obj fs := by
    cases hc : kvs.lookup ("diskio") with
    | none => exact ⟨[], rfl⟩
    | some v =>
        obtain ⟨fs, rfl⟩ := h3 v hc
        exact ⟨fs, rfl⟩
  obtain ⟨fs1, e1⟩ := hcpu
  obtain ⟨fs2, e2⟩ := hmem
  obtain ⟨fs3, e3⟩ := hdio
  cases hfmt : format_system_info (Json.obj kvs) with
  | ok s => exact ⟨s, rfl⟩
  | error e =>
      simp only [format_system_info, pyGet, exceptBind_ok, exceptPure_eq, e1, e2, e3]
        at hfmt
      exact Except.noConfusion hfmt

/-- C3 witness: a system payload whose only present nested field is a
well-shaped cpu object formats successfully. -/
theorem formatters_defensive_defaults_w :
    ∃ s, format_system_info
      (Json.obj [(("cpu"), Json.obj [(("total"), Json.num 3)])]) = .ok s :=
  formatters_defensive_defaults.1 [(("cpu"), Json.obj [(("total"), Json.num 3)])]
    (by intro v hv; cases hv; exact ⟨_, rfl⟩)
    (by intro v hv; exact Option.noConfusion hv)
    (by intro v hv; exact Option.noConfusion hv)

/-- C4 (corrected, counterexample): a 1-byte memory total renders as
"0.00 MB" — the memory formatter uses a fixed division and the fixed
label MB, not the repeated-division unit selection ("1.00 B") the claim
requires of every byte-count field. -/
theorem format_memory_info_fixed_unit_cx :
    format_memory_info (Json.obj [(("total"), Json.num 1)]) =
      .ok ("\n内存信息:\n总内存: 0.00 MB\n已使用: 0.00 MB\n空闲: 0.00 MB\n使用率: 0%\n") := by
  rfl

/-- C4 (corrected): only the network traffic totals and rates go through
the repeated division by 1024 with unit selection B/KB/MB/GB/TB/PB
(shown by the six interval characterizations of `format_bytes`); memory,
swap and disk I/O byte fields are rendered by fixed `/1024/1024`
divisions labeled "MB", and filesystem sizes by fixed `/1024/1024/1024`
divisions labeled "GB", regardless of magnitude. -/
theorem byte_field_unit_rendering :
    (∀ t u f p : ℚ, format_memory_info (Json.obj
        [(("total"), Json.num t), (("used"), Json.num u), (("free"), Json.num f),
         (("percent"), Json.num p)]) =
      .ok ("\n内存信息:\n总内存: " ++ formatFixed2 (t / 1024 / 1024) ++
        " MB\n已使用: " ++ formatFixed2 (u / 1024 / 1024) ++
        " MB\n空闲: " ++ formatFixed2 (f / 1024 / 1024) ++
        " MB\n使用率: " ++ numStr p ++ "%\n")) ∧
    (∀ (d : String) (r w : ℚ), diskEntry ((d), Json.obj
        [(("read_bytes"), Json.num r), (("write_bytes"), Json.num w)]) =
      .ok ("\n设备: " ++ d ++ "\n  读取: " ++ formatFixed2 (r / 1024 / 1024) ++
        " MB\n  写入: " ++ formatFixed2 (w / 1024 / 1024) ++ " MB\n")) ∧
    (∀ (nm : String) (rr sr tr ts sp : ℚ), networkEntry (Json.obj
        [(("interface_name"), Json.str nm), (("bytes_recv_rate_per_sec"), Json.num rr),
         (("bytes_sent_rate_per_sec"), Json.num sr), (("bytes_recv_gauge"), Json.num tr),
         (("bytes_sent_gauge"), Json.num ts), (("speed"), Json.num sp)]) =
      .ok ("\n接口: " ++ nm ++ "\n  链接速度: " ++
        formatFixed2 (sp / (1024 * 1024 * 1024)) ++
        " Gbps\n  当前速率:\n    接收: " ++ format_bytes_rate rr ++
        "/s\n    发送: " ++ format_bytes_rate sr ++
        "/s\n  总流量:\n    接收: " ++ format_bytes tr ++
        "\n    发送: " ++ format_bytes ts ++ "\n")) ∧
    (∀ (st : RegState) (sid : Option String) (info : ServerInfo),
      st.servers.lookup (sid.getD st.defaultId) = some info →
      ∀ t u f p : ℚ, get_swap_info (fun _ => some (Json.obj
          [(("total"), Json.num t), (("used"), Json.num u), (("free"), Json.num f),
           (("percent"), Json.num p)])) sid st =
        .ok ("\n交换分区信息:\n总大小: " ++ formatFixed2 (t / 1024 / 1024) ++
          " MB\n已使用: " ++ formatFixed2 (u / 1024 / 1024) ++
          " MB\n空闲: " ++ formatFixed2 (f / 1024 / 1024) ++
          " MB\n使用率: " ++ numStr p ++ "%\n")) ∧
    (∀ (m d : String) (sz us fr p : ℚ), fsEntry (Json.obj
        [(("mnt_point"), Json.str m), (("device_name"), Json.str d),
         (("size"), Json.num sz), (("used"), Json.num us), (("free"), Json.num fr),
         (("percent"), Json.num p)]) =
      .ok ("\n挂载点: " ++ m ++ "\n设备: " ++ d ++
        "\n总空间: " ++ formatFixed2 (sz / 1024 / 1024 / 1024) ++
        " GB\n已用: " ++ formatFixed2 (us / 1024 / 1024 / 1024) ++
        " GB\n可用: " ++ formatFixed2 (fr / 1024 / 1024 / 1024) ++
        " GB\n使用率: " ++ numStr p ++ "%\n")) ∧
    (∀ v : ℚ, 0 ≤ v → v < 1024 → format_bytes v = formatFixed2 v ++ " " ++ ("B")) ∧
    (∀ v : ℚ, 1024 ≤ v → v < 1048576 →
      format_bytes v = formatFixed2 (v / 1024) ++ " " ++ ("KB")) ∧
    (∀ v : ℚ, 1048576 ≤ v → v < 1073741824 →
      format_bytes v = formatFixed2 (v / 1024 / 1024) ++ " " ++ ("MB")) ∧
    (∀ v : ℚ, 1073741824 ≤ v → v < 1099511627776 →
      format_bytes v = formatFixed2 (v / 1024 / 1024 / 1024) ++ " " ++ ("GB")) ∧
    (∀ v : ℚ, 1099511627776 ≤ v → v < 1125899906842624 →
      format_bytes v = formatFixed2 (v / 1024 / 1024 / 1024 / 1024) ++ " " ++ ("TB")) ∧
    (∀ v : ℚ, 1125899906842624 ≤ v →
      format_bytes v = formatFixed2 (v / 1024 / 1024 / 1024 / 1024 / 1024) ++ " PB") := by
  have pos : (0 : ℚ) < 1024 := by norm_num
  refine ⟨fun t u f p => by rfl, fun d r w => by rfl, fun nm rr sr tr ts sp => by rfl,
    ?_, fun m d sz us fr p => by rfl, ?_, ?_, ?_, ?_, ?_, ?_⟩
  · intro st sid info h t u f p
    have hreq : make_glances_request (fun _ => some (Json.obj
        [(("total"), Json.num t), (("used"), Json.num u), (("free"), Json.num f),
         (("percent"), Json.num p)])) ("memswap") sid st =
        .ok (some (Json.obj
          [(("total"), Json.num t), (("used"), Json.num u), (("free"), Json.num f),
           (("percent"), Json.num p)])) := by
      simp [make_glances_request, get_server_url, h]
    simp only [get_swap_info, hreq, exceptBind_ok]
    rfl
  · intro v h0 h1
    simp only [format_bytes, formatBytesGo]
    rw [if_pos h1]
  · intro v h1 h2
    have a1 : ¬ v < 1024 := not_lt.mpr h1
    have a2 : v / 1024 < 1024 := by
      rw [div_lt_iff₀ pos]; norm_num; linarith
    simp only [format_bytes, formatBytesGo]
    rw [if_neg a1, if_pos a2]
  · intro v h1 h2
    have a1 : ¬ v < 1024 := not_lt.mpr (by linarith)
    have a2 : ¬ v / 1024 < 1024 := by
      rw [not_lt, le_div_iff₀ pos]; norm_num; linarith
    have a3 : v / 1024 / 1024 < 1024 := by
      rw [div_lt_iff₀ pos, div_lt_iff₀ pos]; norm_num; linarith
    simp only [format_bytes, formatBytesGo]
    rw [if_neg a1, if_neg a2, if_pos a3]
  · intro v h1 h2
    have a1 : ¬ v < 1024 := not_lt.mpr (by linarith)
    have a2 : ¬ v / 1024 < 1024 := by
      rw [not_lt, le_div_iff₀ pos]; norm_num; linarith
    have a3 : ¬ v / 1024 / 1024 < 1024 := by
      rw [not_lt, le_div_iff₀ pos, le_div_iff₀ pos]; norm_num; linarith
    have a4 : v / 1024 / 1024 / 1024 < 1024 := by
      rw [div_lt_iff₀ pos, div_lt_iff₀ pos, div_lt_iff₀ pos]; norm_num; linarith
    simp only [format_bytes, formatBytesGo]
    rw [if_neg a1, if_neg a2, if_neg a3, if_pos a4]
  · intro v h1 h2
    have a1 : ¬ v < 1024 := not_lt.mpr (by linarith)
    have a2 : ¬ v / 1024 < 1024 := by
      rw [not_lt, le_div_iff₀ pos]; norm_num; linarith
    have a3 : ¬ v / 1024 / 1024 < 1024 := by
      rw [not_lt, le_div_iff₀ pos, le_div_iff₀ pos]; norm_num; linarith
    have a4 : ¬ v / 1024 / 1024 / 1024 < 1024 := by
      rw [not_lt, le_div_iff₀ pos, le_div_iff₀ pos, le_div_iff₀ pos]; norm_num; linarith
    have a5 : v / 1024 / 1024 / 1024 / 1024 < 1024 := by
      rw [div_lt_iff₀ pos, div_lt_iff₀ pos, div_lt_iff₀ pos, div_lt_iff₀ pos]
      norm_num; linarith
    simp only [format_bytes, formatBytesGo]
    rw [if_neg a1, if_neg a2, if_neg a3, if_neg a4, if_pos a5]
  · intro v h1
    have a1 : ¬ v < 1024 := not_lt.mpr (by linarith)
    have a2 : ¬ v / 1024 < 1024 := by
      rw [not_lt, le_div_iff₀ pos]; norm_num; linarith
    have a3 : ¬ v / 1024 / 1024 < 1024 := by
      rw [not_lt, le_div_iff₀ pos, le_div_iff₀ pos]; norm_num; linarith
    have a4 : ¬ v / 1024 / 1024 / 1024 < 1024 := by
      rw [not_lt, le_div_iff₀ pos, le_div_iff₀ pos, le_div_iff₀ pos]; norm_num; linarith
    have a5 : ¬ v / 1024 / 1024 / 1024 / 1024 < 1024 := by
      rw [not_lt, le_div_iff₀ pos, le_div_iff₀ pos, le_div_iff₀ pos, le_div_iff₀ pos]
      norm_num; linarith
    simp only [format_bytes, formatBytesGo]
    rw [if_neg a1, if_neg a2, if_neg a3, if_neg a4, if_neg a5]

/-- C4 witness: one megabyte of memory renders with the fixed MB label,
a 1-TiB swap total renders as "1048576.00 MB" (fixed unit, no
selection), and `format_bytes` picks KB for 2048 bytes. -/
theorem byte_field_unit_rendering_w :
    format_memory_info (Json.obj [(("total"), Json.num 1048576),
      (("used"), Json.num 0), (("free"), Json.num 0), (("percent"), Json.num 0)]) =
      .ok ("\n内存信息:\n总内存: 1.00 MB\n已使用: 0.00 MB\n空闲: 0.00 MB\n使用率: 0%\n") ∧
    get_swap_info (fun _ => some (Json.obj [(("total"), Json.num 1099511627776),
        (("used"), Json.num 0), (("free"), Json.num 0), (("percent"), Json.num 0)]))
      (some ("server1")) st0 =
      .ok ("\n交换分区信息:\n总大小: 1048576.00 MB\n已使用: 0.00 MB\n空闲: 0.00 MB\n使用率: 0%\n") ∧
    format_bytes 2048 = ("2.00 KB") :=
  ⟨byte_field_unit_rendering.1 1048576 0 0 0,
   byte_field_unit_rendering.2.2.2.1 st0 (some ("server1")) info1 (by rfl)
     1099511627776 0 0 0,
   byte_field_unit_rendering.2.2.2.2.2.2.1 2048 (by norm_num) (by norm_num)⟩

/-- C5 (confirmed): for a valid server id, once the probe of the `all`
endpoint is truthy and each sub-handler succeeds, `get_all_stats`
returns the header followed by the system, CPU, memory, disk I/O,
network and uptime outputs in exactly that order, each output after the
first preceded by a newline separator (a blank line, since each
successful sub-report ends with a newline). -/
theorem get_all_stats_concatenation (http : String → Option Json) (st : RegState)
    (sid : String) (info : ServerInfo) (jAll : Json) (o1 o2 o3 o4 o5 o6 : String)
    (hs : st.servers.lookup sid = some info)
    (hall : http (info.url ++ "/" ++ ("all")) = some jAll)
    (ht : jAll.truthy = true)
    (h1 : get_system_info http (some sid) st = .ok o1)
    (h2 : get_cpu_info http (some sid) st = .ok o2)
    (h3 : get_memory_info http (some sid) st = .ok o3)
    (h4 : get_disk_io_info http (some sid) st = .ok o4)
    (h5 : get_network_info http (some sid) st = .ok o5)
    (h6 : get_uptime http (some sid) st = .ok o6) :
    get_all_stats http (some sid) st =
      .ok ("服务器 \x27" ++ info.name ++ "\x27 的统计信息汇总:\n" ++
        o1 ++ "\n" ++ o2 ++ "\n" ++ o3 ++ "\n" ++ o4 ++ "\n" ++ o5 ++ "\n" ++ o6) := by
  have hreq : make_glances_request http ("all") (some sid) st = .ok (some jAll) := by
    simp [make_glances_request, get_server_url, hs, hall]
  simp [get_all_stats, hreq, ht, serversIndex, hs, catchValueError,
    h1, h2, h3, h4, h5, h6]

/-- C5 witness: on the concrete registry and the `http5` transport (all
endpoints answering, network falsy) the aggregate is the header plus the
six sub-outputs with separators. -/
theorem get_all_stats_concatenation_w :
    get_all_stats http5 (some ("server1")) st0 =
      .ok ("服务器 \x27S1\x27 的统计信息汇总:\n服务器 \x27S1\x27 的系统信息:\n\n系统信息:\n主机名: Unknown\n操作系统: Unknown \nCPU使用率: 0%\n内存使用率: 0%\n磁盘使用率: 0%\n\n\nCPU信息:\n总使用率: 0%\n用户空间: 0%\n系统空间: 0%\n空闲: 0%\nI/O等待: 0%\n\n\n内存信息:\n总内存: 0.00 MB\n已使用: 0.00 MB\n空闲: 0.00 MB\n使用率: 0%\n\n磁盘I/O信息:\n\n设备: a\n  读取: 0.00 MB\n  写入: 0.00 MB\n\n无法获取网络信息。\n系统已运行: 0天 0小时 0分钟") :=
  get_all_stats_concatenation http5 st0 ("server1") info1
    (Json.obj [(("a"), Json.obj [])])
    ("服务器 \x27S1\x27 的系统信息:\n\n系统信息:\n主机名: Unknown\n操作系统: Unknown \nCPU使用率: 0%\n内存使用率: 0%\n磁盘使用率: 0%\n")
    ("\nCPU信息:\n总使用率: 0%\n用户空间: 0%\n系统空间: 0%\n空闲: 0%\nI/O等待: 0%\n")
    ("\n内存信息:\n总内存: 0.00 MB\n已使用: 0.00 MB\n空闲: 0.00 MB\n使用率: 0%\n")
    ("磁盘I/O信息:\n\n设备: a\n  读取: 0.00 MB\n  写入: 0.00 MB\n")
    ("无法获取网络信息。")
    ("系统已运行: 0天 0小时 0分钟")
    (by rfl) (by rfl) (by rfl) (by rfl) (by rfl) (by rfl) (by rfl) (by rfl) (by rfl)

/-- C9 (corrected, counterexample): a successful uptime payload of 0
seconds is falsy, so the handler reports the unavailable message rather
than rendering "0天 0小时 0分钟". -/
theorem get_uptime_zero_seconds_unavailable :
    get_uptime (fun _ => some (Json.num 0)) (some ("server1")) st0 =
      .ok ("无法获取系统运行时间。") := by rfl

/-- C9 (corrected): for every nonzero integer payload of n seconds the
uptime renders as the prefix "系统已运行: " followed by the truncating
decomposition days = n // 86400, hours = (n % 86400) // 3600,
minutes = (n % 3600) // 60 (Python floor division and modulo). -/
theorem get_uptime_decomposition (http : String → Option Json) (st : RegState)
    (sid : String) (info : ServerInfo) (n : ℤ)
    (hs : st.servers.lookup sid = some info)
    (hh : http (info.url ++ "/" ++ ("uptime")) = some (Json.num (n : ℚ)))
    (hn : n ≠ 0) :
    get_uptime http (some sid) st =
      .ok ("系统已运行: " ++ toString (Int.fdiv n 86400) ++ "天 " ++
        toString (Int.fdiv (Int.fmod n 86400) 3600) ++ "小时 " ++
        toString (Int.fdiv (Int.fmod n 3600) 60) ++ "分钟") := by
  have hreq : make_glances_request http ("uptime") (some sid) st =
      .ok (some (Json.num (n : ℚ))) := by
    simp [make_glances_request, get_server_url, hs, hh]
  have htr : (Json.num ((n : ℤ) : ℚ)).truthy = true := by
    simp [Json.truthy]
    exact_mod_cast hn
  have hint : ratTrunc ((n : ℤ) : ℚ) = n := by
    simp [ratTrunc, Rat.intCast_num, Rat.intCast_den, Int.tdiv_one]
  simp [get_uptime, hreq, htr, pyInt, hint]

/-- C9 witness: 90000 seconds render as 1 day, 1 hour, 0 minutes. -/
theorem get_uptime_decomposition_w :
    get_uptime (fun _ => some (Json.num 90000)) (some ("server1")) st0 =
      .ok ("系统已运行: 1天 1小时 0分钟") :=
  get_uptime_decomposition (fun _ => some (Json.num 90000)) st0 ("server1") info1
    90000 (by rfl) (by simp) (by norm_num)

end Glances
